import Mathlib

/-!
Verification of the TeX output filter (`tex-filter.py`).

The program is a streaming line filter: for each input line it records a
sticky error flag when the raw line begins with the fatal sentinel, trims
the line, decides suppression from a toggle set and one line of lookback
state, applies an ordered rewrite chain (literal/regex removal, path
stubbing, stub cleanup, page-number stripping), collapses blank lines, and
emits the survivors.  The embedding below models lines as `List Char`
(strings without their trailing newline) and models each concrete regular
expression of the source as an explicit deterministic matcher, analysed
from the pattern text.  Python whitespace (`str.strip`, `\s`) is modelled
by its ASCII part; the rare Unicode space characters are not modelled.
-/

/-- ASCII whitespace, the characters Python's `str.strip()` and `\s` remove
from TeX output lines. -/
def isWS (c : Char) : Bool :=
  c == ' ' || c == '\t' || c == '\n' || c == '\r' || c == '\x0b' || c == '\x0c'

def isDigit (c : Char) : Bool := 48 ≤ c.toNat && c.toNat ≤ 57

def isAlphaNum (c : Char) : Bool :=
  (65 ≤ c.toNat && c.toNat ≤ 90) || (97 ≤ c.toNat && c.toNat ≤ 122) || isDigit c

/-- The class `[0-9\.]`. -/
def isDigitDot (c : Char) : Bool := isDigit c || c == '.'

/-- The class `\w` (ASCII part). -/
def isWordC (c : Char) : Bool := isAlphaNum c || c == '_'

/-- The class `[\w\/]`. -/
def isWordSlash (c : Char) : Bool := isWordC c || c == '/'

/-- The class `[a-zA-Z0-9\-_\/\.]` used in the path patterns. -/
def isPathChar (c : Char) : Bool :=
  isAlphaNum c || c == '-' || c == '_' || c == '/' || c == '.'

/-- The class `[A-Za-z0-9\-_/]` used in the `.aux` / `.out` patterns. -/
def isAuxPathChar (c : Char) : Bool :=
  isAlphaNum c || c == '-' || c == '_' || c == '/'

/-- The class `[\(#\) ]` of `PATH_STUB_PATTERN_2`. -/
def isStubChar (c : Char) : Bool := c == '(' || c == '#' || c == ')' || c == ' '

/-- The class `[\(\) ]` of the final parens-only check. -/
def isParenSpace (c : Char) : Bool := c == '(' || c == ')' || c == ' '

/-- Python `str.strip()`: drop whitespace from both ends. -/
def pyStripL (l : List Char) : List Char :=
  ((l.dropWhile isWS).reverse.dropWhile isWS).reverse

/-- A matcher: given the text at the current position, return the number of
characters a (deterministic) regex match consumes there, or `none`. -/
abbrev M := List Char → Option Nat

/-- Literal text. -/
def litM (p : List Char) : M := fun s => if p.isPrefixOf s then some p.length else none

def litS (p : String) : M := litM p.data

/-- Sequencing of two matchers. -/
def seqM (a b : M) : M := fun s =>
  match a s with
  | some n =>
    match b (s.drop n) with
    | some k => some (n + k)
    | none => none
  | none => none

/-- Ordered alternation, as in a regex `(x|y)` group. -/
def altM (a b : M) : M := fun s =>
  match a s with
  | some n => some n
  | none => b s

/-- Greedy optional literal (`x?` with literal `x`): safe here because at
every use site a failure after consuming `x` also fails without it. -/
def optLitS (p : String) : M := fun s =>
  if p.data.isPrefixOf s then some p.data.length else some 0

/-- Matcher for `a?b` with greedy backtracking: try `ab`, else `b` alone. -/
def optSeqM (a b : M) : M := fun s =>
  match seqM a b s with
  | some n => some n
  | none => b s

/-- Empty match. -/
def epsM : M := fun _ => some 0

/-- Greedy `cls*`/`cls+` (at least `minL` characters) followed by `next`,
without backtracking into the run: faithful whenever `next` cannot start
with a character of `cls`. -/
def runThenM (cls : Char → Bool) (minL : Nat) (next : M) : M := fun s =>
  let n := (s.takeWhile cls).length
  if n < minL then none
  else
    match next (s.drop n) with
    | some k => some (n + k)
    | none => none

/-- Greedy `cls+` at the end of a pattern. -/
def plusRunM (cls : Char → Bool) : M := runThenM cls 1 epsM

/-- `\d+.` at the end of a pattern (`.` is any character): greedy digits,
give one back for the `.` when the run reaches the end of the text. -/
def digitsThenAnyM : M := fun s =>
  let n := (s.takeWhile isDigit).length
  if n = 0 then none
  else if n < s.length then some (n + 1)
  else if 2 ≤ n then some n
  else none

/-- `re.sub` driver with explicit fuel (one unit per input position): scan
left to right, replace each leftmost match, resume after it. -/
def gsubF (m : M) (repl : List Char) : Nat → List Char → List Char
  | _, [] => []
  | 0, s => s
  | fuel + 1, c :: cs =>
    match m (c :: cs) with
    | some (n + 1) => repl ++ gsubF m repl fuel (cs.drop n)
    | _ => c :: gsubF m repl fuel cs

/-- `re.sub(pattern, repl, s)` for a pattern that never matches the empty
string. -/
def gsub (m : M) (repl : List Char) (s : List Char) : List Char :=
  gsubF m repl s.length s

/-- Does the matcher succeed at some position of `s`? -/
def occurs (m : M) : List Char → Bool
  | [] => false
  | c :: cs => (m (c :: cs)).isSome || occurs m cs

/-- Python `sub in s` / the occurrence test for `str.replace`. -/
def containsSub (p : List Char) (s : List Char) : Bool := occurs (litM p) s

/-- `fullmatch` of the source: the (deterministic) match at position 0 must
consume the whole string. -/
def fullM (m : M) (s : List Char) : Bool :=
  match m s with
  | some n => n == s.length
  | none => false

/-! ## Concrete patterns of the source

Each definition below embeds one concrete regular expression (or literal
table) of `tex-filter.py`.  Apostrophes, backticks and braces inside the
pattern texts are written with `\x` escapes. -/

/-- The single entry of `BAD_STRS` (note the leading space). -/
def badStr1 : List Char := (" ABD: EveryShipout initializing macros").data

/-- `BAD_PATTERNS[0]`:
`pdfTeX warning \(dest\): name{[^}]*} has been referenced but does not exist, replaced by a fixed one`. -/
def badPat1 : M :=
  seqM (litS ("pdfTeX warning (dest): name\x7b"))
    (runThenM (fun c => !(c == '\x7d')) 0
      (litS ("\x7d has been referenced but does not exist, replaced by a fixed one")))

/-- `BAD_PATTERNS[1]`:
`warning  \(pdf backend\): unreferenced destination with name '[^']*'`. -/
def badPat2 : M :=
  seqM (litS ("warning  (pdf backend): unreferenced destination with name \x27"))
    (runThenM (fun c => !(c == '\x27')) 0 (litS ("\x27")))

/-- `BAD_PATTERNS[2]`: ` ?Excluding comment '[^']*'\.?`. -/
def badPat3 : M :=
  seqM (optLitS (" "))
    (seqM (litS ("Excluding comment \x27"))
      (seqM (runThenM (fun c => !(c == '\x27')) 0 (litS ("\x27"))) (optLitS ("."))))

/-- `BAD_PATTERNS[3]`: ` ?Excluding '[^']*' comment\.?`. -/
def badPat4 : M :=
  seqM (optLitS (" "))
    (seqM (litS ("Excluding \x27"))
      (seqM (runThenM (fun c => !(c == '\x27')) 0 (litS ("\x27 comment"))) (optLitS ("."))))

/-- `BAD_PATTERNS[4]`: `\([A-Za-z0-9\-_/]+\.aux\)`. -/
def badPat5 : M := seqM (litS ("(")) (runThenM isAuxPathChar 1 (litS (".aux)")))

/-- `BAD_PATTERNS[5]`: `\([A-Za-z0-9\-_/]+\.out\)`. -/
def badPat6 : M := seqM (litS ("(")) (runThenM isAuxPathChar 1 (litS (".out)")))

/-- `BAD_PATTERNS[6]`:
`Library \(tcolorbox\): 'tcb[A-Za-z0-9]+\.code\.tex' version '[0-9\.]+'`. -/
def badPat7 : M :=
  seqM (litS ("Library (tcolorbox): \x27tcb"))
    (seqM (runThenM isAlphaNum 1 (litS (".code.tex\x27 version \x27")))
      (runThenM isDigitDot 1 (litS ("\x27"))))

/-- `Overfull \\vbox \([0-9\.]+pt too high\) ` + `VBOX_SUFFIX`. -/
def ovboxM : M :=
  seqM (litS ("Overfull \\vbox ("))
    (runThenM isDigitDot 1 (litS ("pt too high) has occurred while \\output is active")))

/-- `Underfull \\vbox \(badness \d+\) ` + `VBOX_SUFFIX`. -/
def uvboxM : M :=
  seqM (litS ("Underfull \\vbox (badness "))
    (runThenM isDigit 1 (litS (") has occurred while \\output is active")))

/-- `FILE_FORMATS`, as the ordered alternation of recognised suffixes. -/
def FILE_FORMATS : List String :=
  [("sty"), ("tex"), ("cfg"), ("def"), ("clo"), ("fd"), ("mkii"), ("pfb"), ("enc"),
   ("map"), ("cls"), ("otf"), ("ldf"), ("tikz"), ("aux"), ("out"), ("bbl"), ("ltx"),
   ("sto"), ("ttf"), ("dict")]

/-- First alternative of the format alternation that matches at `s`. -/
def fmtMatch : List String → List Char → Option Nat
  | [], _ => none
  | p :: ps, s => if p.data.isPrefixOf s then some p.data.length else fmtMatch ps s

/-- Backtracking for `[a-zA-Z0-9\-_\/\.]+\.(FILE_FORMATS)`: try run lengths
from the greedy maximum down to 1; at each, require a literal `.` and then a
format alternative. -/
def stdBodyTry (s : List Char) : Nat → Option Nat
  | 0 => none
  | k + 1 =>
    match s.drop (k + 1) with
    | c :: rest =>
      if c == '.' then
        match fmtMatch FILE_FORMATS rest with
        | some flen => some (k + 1 + 1 + flen)
        | none => stdBodyTry s k
      else stdBodyTry s k
    | [] => stdBodyTry s k

/-- `[a-zA-Z0-9\-_\/\.]+\.(FILE_FORMATS)`. -/
def stdBodyM : M := fun s => stdBodyTry s (s.takeWhile isPathChar).length

/-- `std_path_pattern`: the installation root (taken literally) followed by
`UNPREFIXED_STD_PATH_PATTERN`, i.e. `/texmf-(dist|var)/` and a path body.
The source splices the root into the regex text; this models roots that
contain no regex metacharacters. -/
def stdPathM (root : List Char) : M :=
  seqM (litM root)
    (seqM (litS ("/texmf-"))
      (seqM (altM (litS ("dist")) (litS ("var")))
        (seqM (litS ("/")) stdBodyM)))

/-- `LOCAL_PATH_PATTERN`: `./[a-zA-Z0-9\-_\/\.]+\.(FILE_FORMATS)` — the
leading `.` is an unescaped regex dot, so it matches any character. -/
def localPathM : M := fun s =>
  match s with
  | _ :: c2 :: rest =>
    if c2 == '/' then
      match stdBodyM rest with
      | some n => some (n + 2)
      | none => none
    else none
  | _ => none

/-- Index of the last `)` in a list, if any. -/
def lastRP : List Char → Option Nat
  | [] => none
  | c :: cs =>
    match lastRP cs with
    | some k => some (k + 1)
    | none => if c == ')' then some 0 else none

/-- `PATH_STUB_PATTERN` = `\(#[\(#\) ]*\)`: after the literal `(#`, the
greedy class run backtracks to the last `)` inside it. -/
def stubGroupM : M := fun s =>
  match s with
  | c1 :: c2 :: rest =>
    if c1 == '(' && c2 == '#' then
      match lastRP (rest.takeWhile isStubChar) with
      | some k => some (k + 3)
      | none => none
    else none
  | _ => none

/-- `PATH_STUB_PATTERN_2` = `[\(#\) ]+` as a `fullmatch`: the whole (non
empty) line consists of stub characters. -/
def fullPS2 (s : List Char) : Bool := !s.isEmpty && s.all isStubChar

/-- `[\(\) ]+` as a `fullmatch`. -/
def fullParen (s : List Char) : Bool := !s.isEmpty && s.all isParenSpace

/-- The page-number pattern `\s*\[[0-9\.]+\]`. -/
def pageNumM : M :=
  runThenM isWS 0 (seqM (litS ("[")) (runThenM isDigitDot 1 (litS ("]"))))

/-- `CITEREF_PATTERN` (used with `re.match`, i.e. anchored at the start):
`(LaTeX|Package natbib) Warning: (Citation|Reference|Hyper reference)
\x60[^']+'( on page \w+)? undefined on input line \d+.`. -/
def citerefM : M :=
  seqM (altM (litS ("LaTeX")) (litS ("Package natbib")))
    (seqM (litS (" Warning: "))
      (seqM (altM (litS ("Citation")) (altM (litS ("Reference")) (litS ("Hyper reference"))))
        (seqM (litS (" \x60"))
          (seqM (runThenM (fun c => !(c == '\x27')) 1 (litS ("\x27")))
            (optSeqM (seqM (litS (" on page ")) (plusRunM isWordC))
              (seqM (litS (" undefined on input line ")) digitsThenAnyM))))))

/-- `LATEX_FONT_WARN_1`:
`LaTeX Font Warning: Font shape \x60[\w\/]+' (undefined|in size <[0-9\.]+> not available)`. -/
def fontW1M : M :=
  seqM (litS ("LaTeX Font Warning: Font shape \x60"))
    (seqM (runThenM isWordSlash 1 (litS ("\x27 ")))
      (altM (litS ("undefined"))
        (seqM (litS ("in size <")) (runThenM isDigitDot 1 (litS ("> not available"))))))

/-- `LATEX_FONT_WARN_2`:
`\(Font\)\s+(size <[0-9\.]+> substituted|using \x60[\w\/]+' instead) on input line \d+.`. -/
def fontW2M : M :=
  seqM (litS ("(Font)"))
    (seqM (plusRunM isWS)
      (seqM (altM (seqM (litS ("size <")) (runThenM isDigitDot 1 (litS ("> substituted"))))
              (seqM (litS ("using \x60")) (runThenM isWordSlash 1 (litS ("\x27 instead")))))
        (seqM (litS (" on input line ")) digitsThenAnyM)))

/-- `PATH_STUB` = `'#'`. -/
def PATH_STUB : Char := '#'

/-- The literal `'<' + PATH_STUB + '>'`. -/
def angleStub : List Char := ("<#>").data

/-- The literal `'{' + PATH_STUB + '}'`. -/
def braceStub : List Char := ("\x7b#\x7d").data

/-- `BAD_LINES`: the blacklist of line prefixes. -/
def BAD_LINES : List String :=
  [("This is pdfTeX, Version"),
   ("This is LuaHBTeX, Version"),
   ("This is XeTeX, Version"),
   ("restricted \\write18 enabled."),
   ("restricted system commands enabled."),
   ("LaTeX2e <"),
   ("entering extended mode"),
   ("L3 programming layer"),
   ("Document Class:"),
   ("For additional information on amsmath, use the \x60?\x27 option."),
   ("Document Style algorithmicx 1.2 - a greatly improved \x60algorithmic\x27 style"),
   ("Document Style - pseudocode environments for use with the \x60algorithmicx\x27 style"),
   ("*geometry* driver: auto-detecting"),
   ("*geometry* detected driver:"),
   ("[Loading MPS to PDF converter"),
   ("(see the transcript file for additional information)"),
   ("Transcript written on"),
   ("avail lists:"),
   ("AED: lastpage setting LastPage"),
   ("Package: textpos"),
   ("Grid set"),
   ("TextBlockOrigin set to"),
   ("socg-lipics-v2019: fix"),
   ("socg-lipics-v2019: subcaption"),
   ("Package tocbibind Note: Using chapter style headings, unless overridden."),
   ("(natbib)                Rerun to get citations correct."),
   ("(rerunfilecheck)                Rerun to get outlines right"),
   ("(rerunfilecheck)                or use package \x60bookmark\x27."),
   ("(rerunfilecheck)                Rerun to get bibliographical references right.")]

/-- `line.startswith(BAD_LINES)`. -/
def badLinesMatch (l : List Char) : Bool :=
  BAD_LINES.any (fun p => p.data.isPrefixOf l)

/-! ## The filter engine (`clean_file`) -/

/-- The `FILTERS` registry toggles (one Boolean per rule name). -/
structure Filters where
  local_paths : Bool
  std_paths : Bool
  path_stubs : Bool
  bad_lines : Bool
  full_hbox_details : Bool
  ofull_hbox : Bool
  ufull_hbox : Bool
  ofull_vbox : Bool
  ufull_vbox : Bool
  bad_strs : Bool
  page_numbers : Bool
  empty_lines : Bool
  citeref : Bool
  words_of_mem : Bool
  font : Bool

/-- The registry defaults of `FILTERS`. -/
def defaultFilters : Filters :=
  { local_paths := false, std_paths := true, path_stubs := true, bad_lines := true,
    full_hbox_details := true, ofull_hbox := false, ufull_hbox := false,
    ofull_vbox := false, ufull_vbox := false, bad_strs := true, page_numbers := true,
    empty_lines := true, citeref := false, words_of_mem := true, font := false }

/-- `LineState`: the one-line lookback record. -/
structure LineState where
  full_hbox : Bool
  words_of_mem : Bool

/-- The loop state of `clean_file`: sticky error code, lookback state,
blank-tracking flag, and the output lines written so far. -/
structure EngineState where
  errcode : Nat
  prev_state : LineState
  prev_is_empty : Bool
  out : List String

/-- `line.startswith('! ')` on the raw line. -/
def beginsBang (raw : String) : Bool := (("! ").data).isPrefixOf raw.data

/-- `line.startswith('Overfull \\hbox')` (on the stripped line). -/
def hasOfullHbox (l : List Char) : Bool := (("Overfull \\hbox").data).isPrefixOf l

/-- `line.startswith('Underfull \\hbox')` (on the stripped line). -/
def hasUfullHbox (l : List Char) : Bool := (("Underfull \\hbox").data).isPrefixOf l

/-- `'words of node memory still in use' in line`. -/
def hasWordsOfMem (l : List Char) : Bool :=
  containsSub (("words of node memory still in use").data) l

/-- The classification stored as lookback state after each line. -/
def classify (l : List Char) : LineState :=
  { full_hbox := hasOfullHbox l || hasUfullHbox l, words_of_mem := hasWordsOfMem l }

/-- The suppression decision (`discard` in the source), from the toggles,
the previous line's state and the current stripped line. -/
def discardB (f : Filters) (prev : LineState) (l : List Char) : Bool :=
  (f.full_hbox_details && prev.full_hbox)
  || (f.ofull_hbox && hasOfullHbox l)
  || (f.ufull_hbox && hasUfullHbox l)
  || (f.font && (fullM fontW1M l || fullM fontW2M l))
  || (f.citeref && (citerefM l).isSome)
  || (f.bad_lines && badLinesMatch l)
  || (f.words_of_mem && (hasWordsOfMem l || prev.words_of_mem))

/-- The rewrite chain applied to a non-discarded (stripped) line, in the
source's order, ending with the final `strip`. -/
def rewriteLine (f : Filters) (root : List Char) (l0 : List Char) : List Char :=
  let l := l0
  let l := if f.bad_strs then
      let l := gsub (litM badStr1) [] l
      let l := gsub badPat1 [] l
      let l := gsub badPat2 [] l
      let l := gsub badPat3 [] l
      let l := gsub badPat4 [] l
      let l := gsub badPat5 [] l
      let l := gsub badPat6 [] l
      gsub badPat7 [] l
    else l
  let l := if f.ofull_vbox then gsub ovboxM [] l else l
  let l := if f.ufull_vbox then gsub uvboxM [] l else l
  let l := if f.std_paths then gsub (stdPathM root) [PATH_STUB] l else l
  let l := if f.local_paths then gsub localPathM [PATH_STUB] l else l
  let l := if f.path_stubs then
      let l := gsub stubGroupM [] l
      let l := if fullPS2 l then [] else l
      let l := gsub (litM angleStub) [] l
      gsub (litM braceStub) [] l
    else l
  let l := if f.page_numbers then gsub pageNumM [] l else l
  let l := if f.path_stubs then (if fullPS2 l then [] else l) else l
  let l := if fullParen l then [] else l
  pyStripL l

/-- One iteration of the `clean_file` loop on a raw input line. -/
def processLine (f : Filters) (root : List Char) (st : EngineState) (raw : String) :
    EngineState :=
  let ec := if beginsBang raw then 1 else st.errcode
  let l := pyStripL raw.data
  let state := classify l
  if discardB f st.prev_state l then
    { errcode := ec, prev_state := state, prev_is_empty := st.prev_is_empty, out := st.out }
  else
    let r := rewriteLine f root l
    let emit := !(r.isEmpty && (f.empty_lines || st.prev_is_empty))
    { errcode := ec, prev_state := state, prev_is_empty := r.isEmpty,
      out := if emit then st.out ++ [String.mk r] else st.out }

/-- The initial loop state (`errcode = 0`, all-false lookback,
`prev_is_empty = True`, nothing written). -/
def initEngine : EngineState :=
  { errcode := 0, prev_state := { full_hbox := false, words_of_mem := false },
    prev_is_empty := true, out := [] }

/-- `clean_file`: fold the per-line step over the input lines. -/
def clean_file (f : Filters) (root : List Char) (lines : List String) : EngineState :=
  lines.foldl (processLine f root) initEngine

/-- The output stream of a run. -/
def cleanOut (f : Filters) (root : List Char) (lines : List String) : List String :=
  (clean_file f root lines).out

/-- The error code returned by `clean_file`. -/
def cleanErr (f : Filters) (root : List Char) (lines : List String) : Nat :=
  (clean_file f root lines).errcode

/-- The process exit status of `main`: `clean_file`'s error code when
`--detect-error` is on, otherwise the normal exit status 0. -/
def exitCode (detect : Bool) (f : Filters) (root : List Char) (lines : List String) : Nat :=
  if detect then cleanErr f root lines else 0

/-- A concrete installation root used for the concrete runs. -/
def sampleRoot : List Char := ("/opt/texlive/2020").data

/-! ## Structural lemmas about the engine step -/

theorem processLine_errcode (f : Filters) (root : List Char) (st : EngineState) (raw : String) :
    (processLine f root st raw).errcode = if beginsBang raw then 1 else st.errcode := by
  simp only [processLine]
  split <;> rfl

theorem processLine_prev_state (f : Filters) (root : List Char) (st : EngineState)
    (raw : String) :
    (processLine f root st raw).prev_state = classify (pyStripL raw.data) := by
  simp only [processLine]
  split <;> rfl

theorem processLine_out_of_discard (f : Filters) (root : List Char) (st : EngineState)
    (raw : String) (h : discardB f st.prev_state (pyStripL raw.data) = true) :
    (processLine f root st raw).out = st.out := by
  simp only [processLine, h]
  rfl

theorem processLine_out_of_blank (f : Filters) (root : List Char) (st : EngineState)
    (raw : String) (h : rewriteLine f root (pyStripL raw.data) = [])
    (hp : st.prev_is_empty = true) :
    (processLine f root st raw).out = st.out := by
  simp only [processLine, h, hp]
  split
  · rfl
  · simp

theorem errcode_foldl (f : Filters) (root : List Char) :
    ∀ (lines : List String) (st : EngineState),
      (List.foldl (processLine f root) st lines).errcode = 1 ↔
        (st.errcode = 1 ∨ ∃ l ∈ lines, beginsBang l = true) := by
  intro lines
  induction lines with
  | nil => intro st; simp
  | cons a as ih =>
    intro st
    rw [List.foldl_cons, ih]
    rw [processLine_errcode]
    by_cases h : beginsBang a = true
    · simp [h]
    · simp only [Bool.not_eq_true] at h
      simp [h]

theorem errcode_foldl_const (f : Filters) (root : List Char) :
    ∀ (lines : List String) (st : EngineState),
      (∀ l ∈ lines, beginsBang l = false) →
      (List.foldl (processLine f root) st lines).errcode = st.errcode := by
  intro lines
  induction lines with
  | nil => intro st _; rfl
  | cons a as ih =>
    intro st h
    rw [List.foldl_cons, ih _ (fun l hl => h l (List.mem_cons_of_mem a hl)),
      processLine_errcode, h a (List.mem_cons_self a as)]
    simp

set_option maxRecDepth 100000

/-! ## Claims -/

/-- C1: for every filter configuration, root and input stream, `clean_file`
returns error code 1 exactly when some raw (untrimmed) input line begins
with the fatal sentinel `! `.  The flag is independent of the suppression
decision (the equivalence holds for every toggle setting, including ones
that discard the sentinel line), and the `iff` over the whole stream
entails that once set it is never cleared by later lines. -/
theorem C1_error_flag_iff (f : Filters) (root : List Char) (lines : List String) :
    cleanErr f root lines = 1 ↔ ∃ l ∈ lines, beginsBang l = true := by
  unfold cleanErr clean_file
  rw [errcode_foldl]
  simp [initEngine]

/-- C2: with every toggle at its registry default, the input
`This is pdfTeX, Version 3.14` / `Hello` / `[1]` produces exactly the
output line `Hello`: the banner line is discarded by the prefix blacklist,
and `[1]` is rewritten to the empty line and suppressed. -/
theorem C2_default_scenario :
    cleanOut defaultFilters sampleRoot
      [("This is pdfTeX, Version 3.14"), ("Hello"), ("[1]")] = [("Hello")] := by
  decide

/-- C3 counterexample: on the claimed input, with the default configuration
(absolute-path stubbing and path-stub cleanup enabled) and installation
root `/opt/texlive/2020`, the emitted line is `(# Some message)`, not the
claimed `Some message`: the wrapping parentheses are not removed, because
the paren group contains content other than stubs/parens/spaces, so
`PATH_STUB_PATTERN` does not match it. -/
theorem C3_counterexample :
    cleanOut defaultFilters sampleRoot
        [("(/opt/texlive/2020/texmf-dist/tex/latex/foo/foo.sty Some message)")]
      = [("(# Some message)")]
    ∧ cleanOut defaultFilters sampleRoot
        [("(/opt/texlive/2020/texmf-dist/tex/latex/foo/foo.sty Some message)")]
      ≠ [("Some message")] := by
  constructor
  · decide
  · decide

/-- C3 (amended): with absolute-path stubbing and path-stub cleanup enabled
and installation root `/opt/texlive/2020`, the input line
`(/opt/texlive/2020/texmf-dist/tex/latex/foo/foo.sty Some message)` is
emitted as `(# Some message)`: the recognized path is replaced by the stub
token, the trailing content inside the group survives, and the wrapping
parentheses are kept, since the group holds more than stub tokens, parens
and spaces. -/
theorem C3_path_stubbed :
    rewriteLine defaultFilters sampleRoot
        (("(/opt/texlive/2020/texmf-dist/tex/latex/foo/foo.sty Some message)").data)
      = (("(# Some message)").data)
    ∧ cleanOut defaultFilters sampleRoot
        [("(/opt/texlive/2020/texmf-dist/tex/latex/foo/foo.sty Some message)")]
      = [("(# Some message)")] := by
  constructor
  · decide
  · decide

/-- C9: with the default configuration (path-stub cleanup and page-number
stripping enabled), the line `(# [12]` is blanked and suppressed: the
first stub-cleanup pass leaves it intact (it is not composed of stub
characters only), page-number stripping removes ` [12]`, and the re-applied
stub-cleanup pass collapses the remaining `(#` to the empty line, so
nothing is emitted. -/
theorem C9_stub_page_interaction :
    fullPS2 (("(# [12]").data) = false
    ∧ fullPS2 (("(#").data) = true
    ∧ rewriteLine defaultFilters sampleRoot (("(# [12]").data) = []
    ∧ cleanOut defaultFilters sampleRoot [("(# [12]")] = [] := by
  refine ⟨by decide, by decide, by decide, by decide⟩

/-- C8: the single-line input `! Undefined control sequence.` passes
through unchanged and sets the error code; the process exit status is 1
when exit-code mapping is enabled, 0 when it is disabled, and 0 whenever
no input line begins with the fatal sentinel. -/
theorem C8_fatal_line :
    cleanOut defaultFilters sampleRoot [("! Undefined control sequence.")]
      = [("! Undefined control sequence.")]
    ∧ exitCode true defaultFilters sampleRoot [("! Undefined control sequence.")] = 1
    ∧ exitCode false defaultFilters sampleRoot [("! Undefined control sequence.")] = 0
    ∧ ∀ (d : Bool) (f : Filters) (root : List Char) (lines : List String),
        (∀ l ∈ lines, beginsBang l = false) → exitCode d f root lines = 0 := by
  refine ⟨by decide, by decide, by decide, ?_⟩
  intro d f root lines h
  unfold exitCode
  cases d with
  | false => rfl
  | true =>
    simp only [if_pos]
    unfold cleanErr clean_file
    rw [errcode_foldl_const f root lines initEngine h]
    rfl

/-- C8 witness: the general part of `C8_fatal_line` applied to a concrete
sentinel-free stream. -/
theorem C8_fatal_line_witness :
    exitCode true defaultFilters sampleRoot [("Hello")] = 0 :=
  C8_fatal_line.2.2.2 true defaultFilters sampleRoot [("Hello")] (by decide)

/-- The default toggles with both vbox rules enabled. -/
def vboxF : Filters := { defaultFilters with ofull_vbox := true, ufull_vbox := true }

/-- C4 counterexample: a line opening an overfull vbox warning, with the
vbox toggle enabled, is NOT discarded entirely during the suppression
decision: the rewrite chain runs on it and its surrounding content `blah`
is emitted, so the run's output is `[blah]`, not `[]`. -/
theorem C4_counterexample :
    (("Overfull \\vbox").data).isPrefixOf
        (pyStripL (("Overfull \\vbox (10.0pt too high) has occurred while \\output is active blah").data))
      = true
    ∧ vboxF.ofull_vbox = true
    ∧ cleanOut vboxF sampleRoot
        [("Overfull \\vbox (10.0pt too high) has occurred while \\output is active blah")]
      = [("blah")]
    ∧ [("blah")] ≠ ([] : List String) := by
  refine ⟨by decide, by decide, by decide, by decide⟩

/-- C4 (amended): the vbox toggles play no part in the suppression
decision — `discard` is unchanged under any setting of `ofull_vbox` /
`ufull_vbox`; instead, when enabled, the rewrite chain erases the
overfull/underfull vbox warning phrase, so a line consisting of the phrase
alone becomes blank and is suppressed by the blank-line policy, while
surrounding content survives (only hbox warnings are discarded in the
suppression step). -/
theorem C4_vbox_rewritten_not_suppressed :
    (∀ (f : Filters) (prev : LineState) (l : List Char) (b1 b2 : Bool),
        discardB { f with ofull_vbox := b1, ufull_vbox := b2 } prev l = discardB f prev l)
    ∧ cleanOut vboxF sampleRoot
        [("Overfull \\vbox (10.0pt too high) has occurred while \\output is active")] = []
    ∧ cleanOut vboxF sampleRoot
        [("Underfull \\vbox (badness 10000) has occurred while \\output is active")] = []
    ∧ cleanOut vboxF sampleRoot
        [("Overfull \\vbox (10.0pt too high) has occurred while \\output is active blah")]
      = [("blah")] := by
  refine ⟨fun f prev l b1 b2 => rfl, by decide, by decide, by decide⟩

/-- C5: whenever the previous line opened an overfull/underfull hbox
warning header and the box-warning-detail toggle is enabled, the following
(detail) line is discarded — for any engine state, processing the detail
line after the header adds nothing to the output, so the two-line run
emits exactly what the header alone emits, and the header's fate is fixed
before the detail line is even read. -/
theorem C5_detail_discarded (f : Filters) (root : List Char) (st : EngineState)
    (header detail : String) (hf : f.full_hbox_details = true)
    (hh : (hasOfullHbox (pyStripL header.data) || hasUfullHbox (pyStripL header.data)) = true) :
    (processLine f root (processLine f root st header) detail).out
      = (processLine f root st header).out := by
  apply processLine_out_of_discard
  rw [processLine_prev_state]
  unfold discardB classify
  simp [hf, hh]

/-- C5 witness: the hbox header of the spec followed by a detail line,
with the default configuration. -/
theorem C5_detail_discarded_witness :
    (processLine defaultFilters sampleRoot
        (processLine defaultFilters sampleRoot initEngine
          ("Overfull \\hbox (5.0pt too wide) in paragraph at lines 10--12"))
        ("[]\\T1/cmr/m/n/10 some text")).out
      = (processLine defaultFilters sampleRoot initEngine
          ("Overfull \\hbox (5.0pt too wide) in paragraph at lines 10--12")).out :=
  C5_detail_discarded defaultFilters sampleRoot initEngine
    ("Overfull \\hbox (5.0pt too wide) in paragraph at lines 10--12")
    ("[]\\T1/cmr/m/n/10 some text") (by decide) (by decide)

/-- The default toggles with empty-line suppression disabled. -/
def noEmptyF : Filters := { defaultFilters with empty_lines := false }

/-- C6: three blank input lines yield no blank output with empty-line
suppression enabled; and independently of that toggle, a line whose
rewritten form is blank is discarded whenever the blank-tracking state says
the previous line was blank, so consecutive blanks collapse to at most one
emitted blank line (`x` followed by three blanks, with suppression
disabled, emits `x` and a single blank). -/
theorem C6_blank_collapsing :
    cleanOut defaultFilters sampleRoot [(""), (""), ("")] = []
    ∧ (∀ (f : Filters) (root : List Char) (st : EngineState) (raw : String),
        f.empty_lines = false → st.prev_is_empty = true →
        rewriteLine f root (pyStripL raw.data) = [] →
        (processLine f root st raw).out = st.out)
    ∧ cleanOut noEmptyF sampleRoot [("x"), (""), (""), ("")] = [("x"), ("")] := by
  refine ⟨by decide, ?_, by decide⟩
  intro f root st raw _ hp hr
  exact processLine_out_of_blank f root st raw hr hp

/-- C6 witness: a blank line at the start of the stream (where the
blank-tracking state is initialized to blank), with empty-line suppression
disabled, adds nothing to the output. -/
theorem C6_blank_collapsing_witness :
    (processLine noEmptyF sampleRoot initEngine ("")).out = initEngine.out :=
  C6_blank_collapsing.2.1 noEmptyF sampleRoot initEngine ("") (by decide) (by decide) (by decide)

theorem mk_ne_empty (r : List Char) (h : r ≠ []) : String.mk r ≠ ("") := by
  intro he
  apply h
  have hd : (String.mk r).data = ("").data := congrArg String.data he
  simpa using hd

theorem processLine_out_of_keep (f : Filters) (root : List Char) (st : EngineState)
    (raw : String) (hd : discardB f st.prev_state (pyStripL raw.data) = false) :
    (processLine f root st raw).out =
      if !((rewriteLine f root (pyStripL raw.data)).isEmpty
            && (f.empty_lines || st.prev_is_empty))
      then st.out ++ [String.mk (rewriteLine f root (pyStripL raw.data))]
      else st.out := by
  simp [processLine, hd]

theorem processLine_prev_of_keep (f : Filters) (root : List Char) (st : EngineState)
    (raw : String) (hd : discardB f st.prev_state (pyStripL raw.data) = false) :
    (processLine f root st raw).prev_is_empty
      = (rewriteLine f root (pyStripL raw.data)).isEmpty := by
  simp [processLine, hd]

theorem processLine_prev_of_discard (f : Filters) (root : List Char) (st : EngineState)
    (raw : String) (hd : discardB f st.prev_state (pyStripL raw.data) = true) :
    (processLine f root st raw).prev_is_empty = st.prev_is_empty := by
  simp [processLine, hd]

theorem head_append_single (q : List String) (x : String) (y : String)
    (h : (q ++ [x]).head? = some y) : q.head? = some y ∨ (q = [] ∧ y = x) := by
  match q with
  | [] =>
    right
    simp only [List.nil_append, List.head?_cons, Option.some.injEq] at h
    exact ⟨rfl, h.symm⟩
  | a :: t =>
    left
    simp only [List.cons_append, List.head?_cons, Option.some.injEq] at h
    simp [h]

/-- One engine step preserves the pair of blank-tracking invariants: if
nothing has been written yet then `prev_is_empty` is set, and the first
written line is not blank. -/
theorem step_inv (f : Filters) (root : List Char) (st : EngineState) (raw : String)
    (h1 : st.out = [] → st.prev_is_empty = true)
    (h2 : ∀ x, st.out.head? = some x → x ≠ ("")) :
    ((processLine f root st raw).out = [] → (processLine f root st raw).prev_is_empty = true)
    ∧ (∀ x, (processLine f root st raw).out.head? = some x → x ≠ ("")) := by
  by_cases hd : discardB f st.prev_state (pyStripL raw.data) = true
  · have ho : (processLine f root st raw).out = st.out := processLine_out_of_discard f root st raw hd
    have hp : (processLine f root st raw).prev_is_empty = st.prev_is_empty :=
      processLine_prev_of_discard f root st raw hd
    rw [ho, hp]
    exact ⟨h1, h2⟩
  · have hd' : discardB f st.prev_state (pyStripL raw.data) = false := by
      simpa using hd
    have ho := processLine_out_of_keep f root st raw hd'
    have hp := processLine_prev_of_keep f root st raw hd'
    rw [ho, hp]
    by_cases hr : rewriteLine f root (pyStripL raw.data) = []
    · have hie : (rewriteLine f root (pyStripL raw.data)).isEmpty = true := by simp [hr]
      rw [hie]
      by_cases hprev : st.prev_is_empty = true
      · have hc : (!(true && (f.empty_lines || st.prev_is_empty))) = false := by
          simp [hprev]
        rw [hc, if_neg (by simp)]
        exact ⟨fun _ => rfl, h2⟩
      · have hne : st.out ≠ [] := fun hnil => hprev (h1 hnil)
        refine ⟨fun _ => rfl, ?_⟩
        intro x hx
        by_cases he : f.empty_lines = true
        · have hc : (!(true && (f.empty_lines || st.prev_is_empty))) = false := by simp [he]
          rw [hc, if_neg (by simp)] at hx
          exact h2 x hx
        · have he' : f.empty_lines = false := by simpa using he
          have hprev' : st.prev_is_empty = false := by simpa using hprev
          have hc : (!(true && (f.empty_lines || st.prev_is_empty))) = true := by
            simp [he', hprev']
          rw [hc, if_pos rfl] at hx
          rcases head_append_single st.out _ x hx with hcase | hcase
          · exact h2 x hcase
          · exact absurd hcase.1 hne
    · have hie : (rewriteLine f root (pyStripL raw.data)).isEmpty = false := by
        simpa using hr
      rw [hie]
      have hc : (!(false && (f.empty_lines || st.prev_is_empty))) = true := by simp
      rw [hc, if_pos rfl]
      refine ⟨fun hnil => absurd hnil (by simp), ?_⟩
      intro x hx
      rcases head_append_single st.out _ x hx with hcase | hcase
      · exact h2 x hcase
      · rw [hcase.2]
        exact mk_ne_empty _ hr

theorem inv_foldl (f : Filters) (root : List Char) :
    ∀ (lines : List String) (st : EngineState),
      (st.out = [] → st.prev_is_empty = true) →
      (∀ x, st.out.head? = some x → x ≠ ("")) →
      (∀ x, (List.foldl (processLine f root) st lines).out.head? = some x → x ≠ ("")) := by
  intro lines
  induction lines with
  | nil => intro st _ h2; exact h2
  | cons a as ih =>
    intro st h1 h2
    rw [List.foldl_cons]
    exact ih _ (step_inv f root st a h1 h2).1 (step_inv f root st a h1 h2).2

/-- C10: the first emitted output line is never blank — for every filter
configuration (empty-line suppression enabled or not), every root and
every input stream, if the output is nonempty then its first line is not
the empty string, because the blank-tracking state starts as if the
previous emitted line were blank. -/
theorem C10_first_line_nonblank (f : Filters) (root : List Char) (lines : List String)
    (l : String) (h : (cleanOut f root lines).head? = some l) : l ≠ ("") := by
  refine inv_foldl f root lines initEngine (fun _ => rfl) ?_ l h
  intro x hx
  simp only [initEngine] at hx
  exact absurd hx (by simp)

/-- C10 witness: a concrete run whose first output line is `Hi`. -/
theorem C10_first_line_nonblank_witness :
    (cleanOut noEmptyF sampleRoot [(""), ("Hi")]).head? = some ("Hi") ∧ ("Hi") ≠ ("") :=
  ⟨by decide, C10_first_line_nonblank noEmptyF sampleRoot [(""), ("Hi")] ("Hi") (by decide)⟩

/-! ## The rewrite chain is the identity on clean lines (C7) -/

theorem gsubF_id (m : M) (repl : List Char) :
    ∀ (s : List Char), occurs m s = false → ∀ (fuel : Nat), gsubF m repl fuel s = s := by
  intro s
  induction s with
  | nil =>
    intro _ fuel
    cases fuel <;> rfl
  | cons c cs ih =>
    intro h fuel
    have h' : (m (c :: cs)).isSome = false ∧ occurs m cs = false := by
      simpa [occurs] using h
    have hnone : m (c :: cs) = none := by
      cases hm : m (c :: cs) with
      | none => rfl
      | some k => rw [hm] at h'; simp at h'
    cases fuel with
    | zero => rfl
    | succ n =>
      simp only [gsubF, hnone]
      rw [ih h'.2 n]

theorem gsub_id (m : M) (repl : List Char) (s : List Char) (h : occurs m s = false) :
    gsub m repl s = s :=
  gsubF_id m repl s h s.length

theorem occurs_eq_false (m : M) :
    ∀ (s : List Char), (∀ t : List Char, t <:+ s → m t = none) → occurs m s = false := by
  intro s
  induction s with
  | nil => intro _; rfl
  | cons c cs ih =>
    intro h
    simp only [occurs, h (c :: cs) (List.suffix_refl _),
      ih (fun t ht => h t (ht.trans (List.suffix_cons c cs))), Option.isSome_none,
      Bool.or_self]

theorem litM_none_of_mem (p t : List Char) (c : Char) (hcp : c ∈ p) (hct : c ∉ t) :
    litM p t = none := by
  unfold litM
  rw [if_neg]
  intro hpre
  exact hct ((List.isPrefixOf_iff_prefix.mp hpre).subset hcp)

theorem stubGroupM_none (t : List Char) (hct : ('#' : Char) ∉ t) : stubGroupM t = none := by
  match t with
  | [] => rfl
  | [c] => rfl
  | c1 :: c2 :: rest =>
    show (if c1 == '(' && c2 == '#' then _ else none) = none
    rw [if_neg]
    intro hb
    simp only [Bool.and_eq_true, beq_iff_eq] at hb
    exact hct (by simp [hb.2])

theorem occurs_stub_false (s : List Char) (h : ('#' : Char) ∉ s) :
    occurs stubGroupM s = false :=
  occurs_eq_false _ s (fun t ht => stubGroupM_none t (fun hc => h (ht.subset hc)))

theorem contains_angle_false (s : List Char) (h : ('#' : Char) ∉ s) :
    containsSub angleStub s = false :=
  occurs_eq_false _ s
    (fun t ht => litM_none_of_mem _ _ '#' (by decide) (fun hc => h (ht.subset hc)))

theorem contains_brace_false (s : List Char) (h : ('#' : Char) ∉ s) :
    containsSub braceStub s = false :=
  occurs_eq_false _ s
    (fun t ht => litM_none_of_mem _ _ '#' (by decide) (fun hc => h (ht.subset hc)))

theorem fullPS2_eq_false (s : List Char) (hh : ('#' : Char) ∉ s)
    (hp : fullParen s = false) : fullPS2 s = false := by
  by_cases hall : s.all isStubChar = true
  · by_cases hemp : s.isEmpty
    · unfold fullPS2
      simp [hemp]
    · exfalso
      have hps : s.all isParenSpace = true := by
        rw [List.all_eq_true] at hall ⊢
        intro c hc
        have h1 := hall c hc
        have h2 : ¬(c = '#') := fun he => hh (he ▸ hc)
        simp only [isStubChar, Bool.or_eq_true, beq_iff_eq] at h1
        simp only [isParenSpace, Bool.or_eq_true, beq_iff_eq]
        rcases h1 with ((h1 | h1) | h1) | h1
        · exact Or.inl (Or.inl h1)
        · exact absurd h1 h2
        · exact Or.inl (Or.inr h1)
        · exact Or.inr h1
      have : fullParen s = true := by
        unfold fullParen
        simp [hps, hemp]
      rw [this] at hp
      exact Bool.noConfusion hp
  · unfold fullPS2
    simp only [Bool.not_eq_true] at hall
    simp [hall]

/-- The claim's "bracketed page-number suffix", read literally: the
page-number pattern matches a suffix of the line exactly to its end. -/
def endsWithPageNum : List Char → Bool
  | [] => false
  | c :: cs => fullM pageNumM (c :: cs) || endsWithPageNum cs

/-- C7 counterexample: the line `a[1]b` satisfies every condition of the
claim as stated — no blacklisted substring or pattern occurrence, no
installation or project path match, no stub token, no bracketed
page-number SUFFIX, not made of parens and spaces — yet the rewrite chain
is not the identity on it: the default page-number rule removes the
bracketed number from the middle of the line, so `a[1]b` is emitted as
`ab`, not as its trimmed form. -/
theorem C7_counterexample :
    containsSub badStr1 (("a[1]b").data) = false
    ∧ occurs badPat1 (("a[1]b").data) = false
    ∧ occurs badPat2 (("a[1]b").data) = false
    ∧ occurs badPat3 (("a[1]b").data) = false
    ∧ occurs badPat4 (("a[1]b").data) = false
    ∧ occurs badPat5 (("a[1]b").data) = false
    ∧ occurs badPat6 (("a[1]b").data) = false
    ∧ occurs badPat7 (("a[1]b").data) = false
    ∧ occurs (stdPathM sampleRoot) (("a[1]b").data) = false
    ∧ occurs localPathM (("a[1]b").data) = false
    ∧ (("a[1]b").data).contains '#' = false
    ∧ endsWithPageNum (("a[1]b").data) = false
    ∧ fullParen (("a[1]b").data) = false
    ∧ cleanOut defaultFilters sampleRoot [("a[1]b")] = [("ab")]
    ∧ rewriteLine defaultFilters sampleRoot (("a[1]b").data)
        ≠ pyStripL (("a[1]b").data) := by
  decide

/-- C7 (amended): with the default configuration, for every line with no
blacklisted substring, no blacklisted pattern occurrence, no installation
or project path match, no stub token, no occurrence of a bracketed
page-number (anywhere in the line, not only as a suffix), and not made of
parentheses and spaces only, the rewrite chain is the identity up to
whitespace trimming. -/
theorem C7_clean_line_identity (root : List Char) (s : List Char)
    (h0 : containsSub badStr1 s = false)
    (h1 : occurs badPat1 s = false)
    (h2 : occurs badPat2 s = false)
    (h3 : occurs badPat3 s = false)
    (h4 : occurs badPat4 s = false)
    (h5 : occurs badPat5 s = false)
    (h6 : occurs badPat6 s = false)
    (h7 : occurs badPat7 s = false)
    (hstd : occurs (stdPathM root) s = false)
    (hloc : occurs localPathM s = false)
    (hhash : ('#' : Char) ∉ s)
    (hpage : occurs pageNumM s = false)
    (hparen : fullParen s = false) :
    rewriteLine defaultFilters root s = pyStripL s := by
  have g0 : gsub (litM badStr1) [] s = s := gsub_id _ _ _ h0
  have g1 : gsub badPat1 [] s = s := gsub_id _ _ _ h1
  have g2 : gsub badPat2 [] s = s := gsub_id _ _ _ h2
  have g3 : gsub badPat3 [] s = s := gsub_id _ _ _ h3
  have g4 : gsub badPat4 [] s = s := gsub_id _ _ _ h4
  have g5 : gsub badPat5 [] s = s := gsub_id _ _ _ h5
  have g6 : gsub badPat6 [] s = s := gsub_id _ _ _ h6
  have g7 : gsub badPat7 [] s = s := gsub_id _ _ _ h7
  have gstd : gsub (stdPathM root) [PATH_STUB] s = s := gsub_id _ _ _ hstd
  have gstub : gsub stubGroupM [] s = s := gsub_id _ _ _ (occurs_stub_false s hhash)
  have gangle : gsub (litM angleStub) [] s = s := gsub_id _ _ _ (contains_angle_false s hhash)
  have gbrace : gsub (litM braceStub) [] s = s := gsub_id _ _ _ (contains_brace_false s hhash)
  have gpage : gsub pageNumM [] s = s := gsub_id _ _ _ hpage
  have hps2 : fullPS2 s = false := fullPS2_eq_false s hhash hparen
  simp only [rewriteLine, defaultFilters, if_true, if_false, g0, g1, g2, g3, g4, g5, g6,
    g7, gstd, gstub, gangle, gbrace, gpage, hps2, hparen, Bool.false_eq_true]

/-- C7 witness: a concrete clean line, rewritten to its trimmed form. -/
theorem C7_clean_line_identity_witness :
    rewriteLine defaultFilters sampleRoot (("  Hello world  ").data)
      = pyStripL (("  Hello world  ").data) :=
  C7_clean_line_identity sampleRoot (("  Hello world  ").data) (by decide) (by decide)
    (by decide) (by decide) (by decide) (by decide) (by decide) (by decide) (by decide)
    (by decide) (by decide) (by decide) (by decide)
